import Mathlib

/-!
Verification of redux-smart-action (src/SmartAction.js, src/applySmartMiddleware.js,
src/smartActionMiddleware.js) through a shallow embedding.

Modelling conventions:
* A JS state value is modelled by an opaque type sigma.  The JS strict-equality
  operator and the deep-equal library are modelled by two boolean relations that
  the model carries (refEq and deepEq), together with the facts JS guarantees:
  strict equality is reflexive and implies deep equality (deep-equal starts with
  an identity fast path).
* The actions flowing through the wrapped reducer are a closed sum: the internal
  REPLACE action built by middlewareAPI.replaceState (carrying the replacement
  state), redux's own init action dispatched by createStore, and application
  actions.  The model exposes the JS `type` string of each action via typeOf;
  the model records that no application action uses the reserved REPLACE tag.
* A redux store is a state plus a counter of subscriber-notification rounds
  (redux notifies every subscriber once per dispatch).
* A Procedure - the user function func(dispatch, getState) wrapped by a
  SmartAction - is embedded as a syntax tree: it can dispatch an application
  action, observe the current state and continue depending on it, or stop.
  Running a Procedure against a pair of dispatch/getState wirings is runWith.
-/

/-- Reserved action type of applySmartMiddleware.js line 30. -/
def REPLACE : String := "@@smartAction/REPLACE"

/-- The action type redux's createStore dispatches while initialising. -/
def REDUX_INIT : String := "@@redux/INIT"

/-- An action as seen by the wrapped reducer of applySmartMiddleware.js:
either the internal replacement action `{type: REPLACE, state}`, an application
action, or redux's init action. -/
inductive WAction (σ α : Type) : Type where
  | replace (s : σ)
  | app (a : α)
  | init
deriving DecidableEq

/-- The collaborating application pieces plus the JS value semantics:
application reducer, the JS `type` string of each application action, strict
equality (`===`) and deep-equal on state values. -/
structure Model (σ α : Type) : Type where
  appReducer : σ → α → σ
  appType : α → String
  refEq : σ → σ → Bool
  deepEq : σ → σ → Bool
  noCollision : ∀ a, appType a ≠ REPLACE
  refRefl : ∀ x, refEq x x = true
  refImpDeep : ∀ x y, refEq x y = true → deepEq x y = true

/-- The JS `type` field of a wrapped action. -/
def WAction.typeOf (m : Model σ α) : WAction σ α → String
  | .replace _ => REPLACE
  | .app a => m.appType a
  | .init => REDUX_INIT

/-- The application reducer lifted to wrapped actions: redux reducers return the
current state unchanged from their default branch on unknown action types (the
init action); the replace case is unreachable because the wrapper below
intercepts it first. -/
def liftReducer (m : Model σ α) : σ → WAction σ α → σ
  | s, .app a => m.appReducer s a
  | s, .init => s
  | s, .replace _ => s

/-- The reducer wrapper installed by applySmartMiddleware.js lines 35-40: an
action whose type is the REPLACE sentinel short-circuits to the state it
carries; everything else goes to the inner reducer. -/
def wrapReducer (ρ : σ → WAction σ α → σ) : σ → WAction σ α → σ :=
  fun s a =>
    match a with
    | .replace s2 => s2
    | other => ρ s other

/-- A redux store: current state plus the number of subscriber-notification
rounds performed so far (redux notifies all subscribers on every dispatch). -/
structure Store (σ : Type) : Type where
  state : σ
  notifies : Nat
deriving DecidableEq

/-- The real store's reducer: the application reducer under the REPLACE-aware
wrapper (applySmartMiddleware.js line 42 creates the store with it). -/
def realReducer (m : Model σ α) : σ → WAction σ α → σ :=
  wrapReducer (liftReducer m)

/-- Dispatch on the real store: reduce, then notify the subscribers once. -/
def storeDispatch (m : Model σ α) (st : Store σ) (a : WAction σ α) : Store σ :=
  { state := realReducer m st.state a, notifies := st.notifies + 1 }

/-- The reducer of a branch store: applySmartMiddleware.js line 52 re-enters
middlewareReducer with the already wrapped reducer, which line 35 wraps once
more. -/
def branchReducer (m : Model σ α) : σ → WAction σ α → σ :=
  wrapReducer (realReducer m)

/-- Dispatch on a branch store. -/
def branchDispatch (m : Model σ α) (b : Store σ) (a : WAction σ α) : Store σ :=
  { state := branchReducer m b.state a, notifies := b.notifies + 1 }

/-- middlewareAPI.branch, applySmartMiddleware.js line 52:
`branch: () => middlewareReducer(reducer, store.getState())`.  It reads the
real store's current state and builds a fresh store around the re-wrapped
reducer; createStore dispatches the init action while initialising, before any
subscriber exists.  Note the arrow function declares no parameter: a reducer
passed by the caller is silently discarded (see SmartAction.runDontBranch). -/
def apiBranch (m : Model σ α) (st : Store σ) : Store σ :=
  { state := branchReducer m st.state .init, notifies := 0 }

/-- middlewareAPI.replaceState, applySmartMiddleware.js lines 49-51: dispatches
`{type: REPLACE, state}` through the composed dispatch chain; the middleware
passes the plain object through to the store, whose wrapped reducer installs
the carried state. -/
def apiReplaceState (m : Model σ α) (st : Store σ) (s : σ) : Store σ :=
  storeDispatch m st (.replace s)

/-- A Procedure: the body of a SmartAction, interacting with the dispatch and
getState wirings it is handed.  It dispatches application actions, observes the
state to choose how to continue, or stops. -/
inductive Proc (σ α : Type) : Type where
  | done
  | dispatch (a : α) (k : Proc σ α)
  | getState (k : σ → Proc σ α)

/-- Run a Procedure against a dispatch wiring (step) and a getState wiring
(read) over a store of type S, returning the final store. -/
def runWith {S σ α : Type} (step : S → α → S) (read : S → σ) :
    Proc σ α → S → S
  | .done, s => s
  | .dispatch a k, s => runWith step read k (step s a)
  | .getState k, s => runWith step read (k (read s)) s

/-- The states a Procedure observes through getState, in order, when run
against the given wirings. -/
def seenStates {S σ α : Type} (step : S → α → S) (read : S → σ) :
    Proc σ α → S → List σ
  | .done, _ => []
  | .dispatch a k, s => seenStates step read k (step s a)
  | .getState k, s => read s :: seenStates step read (k (read s)) s

/-- A Procedure that never dispatches. -/
inductive DispatchFree {σ α : Type} : Proc σ α → Prop where
  | done : DispatchFree .done
  | getState {k : σ → Proc σ α} :
      (∀ s, DispatchFree (k s)) → DispatchFree (.getState k)

/-- The dispatch wiring a Procedure receives from a branch store: app actions
go through the branch's composed dispatch into branchDispatch. -/
def branchStepApp (m : Model σ α) (b : Store σ) (a : α) : Store σ :=
  branchDispatch m b (.app a)

/-- SmartAction.js: wrapper around a Procedure plus the two construction flags
(constructor lines 5-9, with the JS default values). -/
structure SmartAction (σ α : Type) : Type where
  func : Proc σ α
  branch : Bool := true
  deepEqual : Bool := true

/-- The deferred-execution handle `{canExec, exec}` returned in place of a
normal dispatch result.  exec receives the real store at invocation time and
returns the boolean result together with the store it leaves behind. -/
structure Handle (σ : Type) : Type where
  canExec : Bool
  exec : Store σ → Bool × Store σ

/-- SmartAction.runCheckState, SmartAction.js lines 34-50: record the state
before, run the Procedure against the branch wirings, compare.  Identical
references are an unchanged state; otherwise, with deepEqual set, deep-equal
decides; without it any new reference counts as changed.  Returns the verdict
together with the mutated branch store (in JS the branch object itself). -/
def SmartAction.runCheckState (m : Model σ α) (sa : SmartAction σ α)
    (b : Store σ) : Bool × Store σ :=
  let b2 := runWith (branchStepApp m) Store.state sa.func b
  (if m.refEq b.state b2.state then false
   else if sa.deepEqual then !(m.deepEq b.state b2.state) else true, b2)

/-- SmartAction.runBranch, SmartAction.js lines 15-32: build a branch of the
real store, evaluate the Procedure on it, and hand back a handle.  On a
detected change, exec replaces the real store's state with the branch's final
state and returns true; otherwise exec is a no-op returning false.  The
evaluation itself only reads the real store (branch creation), so the real
store comes back as it went in. -/
def SmartAction.runBranch (m : Model σ α) (sa : SmartAction σ α)
    (st : Store σ) : Handle σ × Store σ :=
  let r := sa.runCheckState m (apiBranch m st)
  (if r.1 then
    { canExec := true
      exec := fun rst => (true, apiReplaceState m rst r.2.state) }
   else
    { canExec := false, exec := fun rst => (false, rst) }, st)

/-- SmartAction.runDontBranch, SmartAction.js lines 52-80.  The source builds a
counting closure `(state) => { count++; return state; }` and passes it to
store.branch (line 60); middlewareAPI.branch (applySmartMiddleware.js line 52)
is declared with no parameter, so the closure is discarded: the probe branch
reduces with the normal wrapped reducer and the closure is never invoked,
leaving count at 0.  The count > 1 test (line 64, meant to discount redux's
init reduction) therefore never holds.  Its then arm is translated from lines
65-73 regardless: exec re-runs the Procedure against a fresh branch and
replaces the real store's state with that branch's final state. -/
def SmartAction.runDontBranch (m : Model σ α) (sa : SmartAction σ α)
    (st : Store σ) : Handle σ × Store σ :=
  let count : Nat := 0
  let _probe := runWith (branchStepApp m) Store.state sa.func (apiBranch m st)
  (if count > 1 then
    { canExec := true
      exec := fun rst =>
        (true, apiReplaceState m rst
          (runWith (branchStepApp m) Store.state sa.func (apiBranch m rst)).state) }
   else
    { canExec := false, exec := fun rst => (false, rst) }, st)

/-- SmartAction.run, SmartAction.js lines 11-13: strategy selection on the
branch flag. -/
def SmartAction.run (m : Model σ α) (sa : SmartAction σ α) (st : Store σ) :
    Handle σ × Store σ :=
  if sa.branch then sa.runBranch m st else sa.runDontBranch m st

/-- The counting reducer closure built by SmartAction.runDontBranch (lines
54-57), modelled over a (state, counter) pair: every invocation returns the
state unchanged and bumps the counter. -/
def countingReducer {σ α : Type} : (σ × Nat) → WAction σ α → (σ × Nat) :=
  fun sc _ => (sc.1, sc.2 + 1)

/-- A value handed to the enhanced store's dispatch: a SmartAction instance or
anything else. -/
inductive Dispatched (σ α : Type) : Type where
  | smart (sa : SmartAction σ α)
  | plain (a : WAction σ α)

/-- What the enhanced store's dispatch comes back with: a handle, JS undefined,
or a thrown TypeError. -/
inductive DispatchResult (σ : Type) : Type where
  | handle (h : Handle σ)
  | undef
  | jsError (msg : String)

/-- The method names class SmartAction defines (src/SmartAction.js). -/
def smartActionMethodNames : List String :=
  ["constructor", "run", "runBranch", "runCheckState", "runDontBranch"]

/-- Whether `action.dispatchToStore` resolves on a SmartAction instance. -/
def dispatchToStoreDefined : Bool :=
  smartActionMethodNames.contains "dispatchToStore"

/-- src/smartActionMiddleware.js: for a SmartAction instance the code builds a
branch (side-effect free) and then evaluates `action.dispatchToStore(branch)`;
SmartAction declares no dispatchToStore method (smartActionMethodNames), so in
JS the call raises a TypeError before any handle is produced, leaving the real
store untouched.  Any other value is forwarded with `next(action)` and the
middleware body ends without a return statement, so the composed dispatch
returns undefined while the store still reduces the action. -/
def enhancedDispatch (m : Model σ α) (st : Store σ) (v : Dispatched σ α) :
    DispatchResult σ × Store σ :=
  match v with
  | .smart _ => (.jsError "action.dispatchToStore is not a function", st)
  | .plain a => (.undef, storeDispatch m st a)

/-! ### A concrete instantiation: the PUSH/POP list store of the repo's tests.

JS objects are modelled as a value tagged with an allocation number: the
reducer returns a freshly allocated array (`state.slice()`) for PUSH and POP,
modelled by bumping the tag, and returns the same object from its default
branch.  Strict equality on such values is equality of tag and content (two
tagged values arising in one run coincide exactly when they are the same
object); deep-equal compares only the content. -/

/-- A JS array value: allocation tag plus list content. -/
structure ListVal : Type where
  ref : Nat
  items : List Nat
deriving DecidableEq

/-- The PUSH/POP actions of the repo's test reducer. -/
inductive AppAct : Type where
  | push (v : Nat)
  | pop
deriving DecidableEq

/-- The test reducer: PUSH and POP copy the array (fresh tag) and mutate the
copy. -/
def listReducer : ListVal → AppAct → ListVal
  | s, .push v => { ref := s.ref + 1, items := s.items ++ [v] }
  | s, .pop => { ref := s.ref + 1, items := s.items.dropLast }

/-- The concrete model built from the test reducer. -/
def listModel : Model ListVal AppAct where
  appReducer := listReducer
  appType := fun a => match a with | .push _ => "PUSH" | .pop => "POP"
  refEq := fun x y => x.ref == y.ref && x.items == y.items
  deepEq := fun x y => x.items == y.items
  noCollision := by intro a; cases a <;> simp [REPLACE]
  refRefl := by intro x; simp
  refImpDeep := by
    intro x y h
    simp only [Bool.and_eq_true] at h
    exact h.2

/-- An empty store: empty array, no notifications delivered yet. -/
def store0 : Store ListVal := { state := { ref := 0, items := [] }, notifies := 0 }

/-- Procedure dispatching a single PUSH. -/
def pushProc (v : Nat) : Proc ListVal AppAct := .dispatch (.push v) .done

/-- The test action push(1) with the default flags. -/
def push1 : SmartAction ListVal AppAct := { func := pushProc 1 }

/-- push(1) with branch set to false (test file pushNoBranch). -/
def push1NoBranch : SmartAction ListVal AppAct :=
  { func := pushProc 1, branch := false }

/-- Procedure pushing then popping the same value (test file pushPop). -/
def pushPopProc : Proc ListVal AppAct :=
  .dispatch (.push 1) (.dispatch .pop .done)

/-- Procedure that dispatches PUSH 1 and then observes the state. -/
def probeReadProc : Proc ListVal AppAct :=
  .dispatch (.push 1) (.getState fun _ => .done)

/-- A SmartAction whose Procedure does nothing. -/
def idleAction : SmartAction ListVal AppAct := { func := .done }

/-! ### Helper lemmas -/

/-- Running a dispatch-free Procedure leaves the store untouched. -/
theorem runWith_dispatchFree {S σ α : Type} (step : S → α → S) (read : S → σ)
    {p : Proc σ α} (hp : DispatchFree p) :
    ∀ s, runWith step read p s = s := by
  induction hp with
  | done => intro s; rfl
  | getState _ ih => intro s; exact ih (read s) s

/-- A branch starts at the real store's current state: the init reduction at
branch creation goes through the application reducer's default branch. -/
theorem apiBranch_state (m : Model σ α) (st : Store σ) :
    (apiBranch m st).state = st.state := rfl

/-- When the change check reports true, runBranch hands out the committing
handle and leaves the real store alone. -/
theorem runBranch_true {σ α : Type} (m : Model σ α) (sa : SmartAction σ α)
    (st : Store σ) (hc : (sa.runCheckState m (apiBranch m st)).1 = true) :
    sa.runBranch m st
      = ({ canExec := true
           exec := fun rst =>
             (true, apiReplaceState m rst
               (sa.runCheckState m (apiBranch m st)).2.state) }, st) := by
  simp [SmartAction.runBranch, hc]

/-- When the change check reports false, runBranch hands out the no-op handle
and leaves the real store alone. -/
theorem runBranch_false {σ α : Type} (m : Model σ α) (sa : SmartAction σ α)
    (st : Store σ) (hc : (sa.runCheckState m (apiBranch m st)).1 = false) :
    sa.runBranch m st
      = ({ canExec := false, exec := fun rst => (false, rst) }, st) := by
  simp [SmartAction.runBranch, hc]

/-- Claim C2, evaluated on the code: the snapshot's dispatch interceptor does
not return a strategy-evaluated handle for a SmartAction.  SmartAction defines
no dispatchToStore method, so for any SmartAction the interceptor raises a
TypeError and the branch flag is never consulted; only the non-SmartAction
pass-through half of the claim holds. -/
theorem claim2_interceptor_raises_typeerror :
    dispatchToStoreDefined = false ∧
    enhancedDispatch listModel store0 (.smart push1)
      = (.jsError "action.dispatchToStore is not a function", store0) ∧
    enhancedDispatch listModel store0 (.plain (.app (.push 1)))
      = (.undef, storeDispatch listModel store0 (.app (.push 1))) :=
  ⟨by decide, rfl, rfl⟩

/-- Claim C3, evaluated on the code: the branch obtained while a counting
reducer is being supplied still reduces with the application reducer - a
dispatched PUSH changes the branch state to a fresh array [1] - whereas the
supplied counting reducer (SmartAction.js lines 54-57) would have left the
state untouched and only bumped its counter. -/
theorem claim3_branch_discards_custom_reducer :
    (branchStepApp listModel (apiBranch listModel store0) (.push 1)).state
      = { ref := 1, items := [1] } ∧
    countingReducer (({ ref := 0, items := [] } : ListVal), 1)
      (.app (.push 1) : WAction ListVal AppAct)
      = ({ ref := 0, items := [] }, 2) :=
  ⟨rfl, rfl⟩

/-- Claim C4, evaluated on the code: under the count-based strategy the probe's
counting reducer is discarded by middlewareAPI.branch, so the counter stays at
0 and the handle can never execute - even for a Procedure that dispatches a
state-changing PUSH, where the claim (and the repo's tests) require canExec to
be true. -/
theorem claim4_count_strategy_never_executes :
    (push1NoBranch.run listModel store0).1.canExec = false ∧
    (push1NoBranch.run listModel store0).1.exec store0 = (false, store0) :=
  ⟨rfl, rfl⟩

/-- Claim C5, evaluated on the code: under the count-based strategy the probe's
getState is wired to a branch that reduces with the real reducer (the counting
reducer having been discarded), so after dispatching PUSH 1 the Procedure
observes the mutated state [1], not the original pre-dispatch state []. -/
theorem claim5_probe_observes_prior_dispatch :
    seenStates (branchStepApp listModel) Store.state probeReadProc
      (apiBranch listModel store0) = [{ ref := 1, items := [1] }] ∧
    store0.state = { ref := 0, items := [] } :=
  ⟨rfl, rfl⟩

/-- Claim C7: dispatching a SmartAction without calling exec leaves the real
store exactly as it was - the evaluation only reads it - and the branch is a
fresh store sharing only the current state value, starting with no
notifications of its own. -/
theorem claim7_dispatch_without_exec_is_pure {σ α : Type} (m : Model σ α)
    (sa : SmartAction σ α) (st : Store σ) :
    (sa.run m st).2 = st ∧ (apiBranch m st).state = st.state ∧
    (apiBranch m st).notifies = 0 := by
  refine ⟨?_, rfl, rfl⟩
  cases hb : sa.branch
  · simp [SmartAction.run, hb, SmartAction.runDontBranch]
  · simp [SmartAction.run, hb, SmartAction.runBranch]

/-- Claim C9: replaceState dispatches the reserved REPLACE-typed action, the
reducer wrapper answers it with the carried state no matter what the inner
reducer is, and every action carrying a different type string - application
actions and redux's init action - is delegated to the inner reducer. -/
theorem claim9_replace_state_semantics {σ α : Type} (m : Model σ α)
    (ρ : σ → WAction σ α → σ) (s x : σ) (a : α) (st : Store σ) :
    WAction.typeOf m (.replace s) = REPLACE ∧
    apiReplaceState m st s = storeDispatch m st (.replace s) ∧
    (apiReplaceState m st s).state = s ∧
    wrapReducer ρ x (.replace s) = s ∧
    WAction.typeOf m (.app a) ≠ REPLACE ∧
    wrapReducer ρ x (.app a) = ρ x (.app a) ∧
    WAction.typeOf m (.init : WAction σ α) ≠ REPLACE ∧
    wrapReducer ρ x (.init : WAction σ α) = ρ x .init :=
  ⟨rfl, rfl, rfl, rfl, m.noCollision a, rfl,
   by simp [WAction.typeOf, REPLACE, REDUX_INIT], rfl⟩

/-- Claim C10: a non-SmartAction value is forwarded to the rest of the chain -
the store reduces it and notifies subscribers - but the enhanced dispatch
itself returns undefined, discarding the downstream return value. -/
theorem claim10_passthrough_returns_undefined {σ α : Type} (m : Model σ α)
    (st : Store σ) (a : WAction σ α) :
    enhancedDispatch m st (.plain a) = (.undef, storeDispatch m st a) := rfl

/-- Claim C8: whenever the handle says canExec is false, exec is a safe no-op:
it returns false and leaves the real store - state and notification count -
untouched; and a Procedure that dispatches nothing always yields such a
handle. -/
theorem claim8_false_handle_exec_noop {σ α : Type} (m : Model σ α)
    (sa : SmartAction σ α) (st rst : Store σ) :
    ((sa.run m st).1.canExec = false → (sa.run m st).1.exec rst = (false, rst)) ∧
    (DispatchFree sa.func → (sa.run m st).1.canExec = false) := by
  constructor
  · intro hce
    cases hb : sa.branch
    · simp [SmartAction.run, hb, SmartAction.runDontBranch]
    · rw [show sa.run m st = sa.runBranch m st by simp [SmartAction.run, hb]] at hce ⊢
      cases hc : (sa.runCheckState m (apiBranch m st)).1
      · rw [runBranch_false m sa st hc]
      · rw [runBranch_true m sa st hc] at hce
        simp at hce
  · intro hdf
    cases hb : sa.branch
    · simp [SmartAction.run, hb, SmartAction.runDontBranch]
    · have hrw : runWith (branchStepApp m) Store.state sa.func (apiBranch m st)
          = apiBranch m st := runWith_dispatchFree _ _ hdf _
      simp [SmartAction.run, hb, SmartAction.runBranch,
        SmartAction.runCheckState, hrw, m.refRefl]

/-- Claim C1 (isolated-branch strategy, the cited SmartAction.runBranch and
replaceState path): when the Procedure's evaluation on the branch produces a
final state that differs from the pre-dispatch state under the action's
configured equality mode, the returned handle can execute; exec replaces the
real store's state with the branch's final state in a single dispatch -
exactly one subscriber notification, however many dispatches the Procedure
made inside the branch - and returns true; and the evaluation itself returns
the real store untouched, so its state changes only when exec runs. -/
theorem claim1_branch_change_commits {σ α : Type} (m : Model σ α)
    (sa : SmartAction σ α) (st rst : Store σ) (hbr : sa.branch = true)
    (hdiff : (if sa.deepEqual
              then m.deepEq st.state
                (runWith (branchStepApp m) Store.state sa.func (apiBranch m st)).state
              else m.refEq st.state
                (runWith (branchStepApp m) Store.state sa.func (apiBranch m st)).state)
             = false) :
    (sa.run m st).1.canExec = true ∧
    (sa.run m st).1.exec rst
      = (true,
         { state :=
             (runWith (branchStepApp m) Store.state sa.func (apiBranch m st)).state,
           notifies := rst.notifies + 1 }) ∧
    (sa.run m st).2 = st := by
  have hchanged : (sa.runCheckState m (apiBranch m st)).1 = true := by
    cases hde : sa.deepEqual
    · simp only [hde, Bool.false_eq_true, if_false] at hdiff
      simp [SmartAction.runCheckState, apiBranch_state, hde, hdiff]
    · simp only [hde, if_true] at hdiff
      have hre : m.refEq st.state
          (runWith (branchStepApp m) Store.state sa.func (apiBranch m st)).state
          = false := by
        cases hre2 : m.refEq st.state
          (runWith (branchStepApp m) Store.state sa.func (apiBranch m st)).state
        · rfl
        · rw [m.refImpDeep _ _ hre2] at hdiff
          exact absurd hdiff (by simp)
      simp [SmartAction.runCheckState, apiBranch_state, hde, hdiff, hre]
  rw [show sa.run m st = sa.runBranch m st by simp [SmartAction.run, hbr],
    runBranch_true m sa st hchanged]
  exact ⟨rfl, rfl, rfl⟩

/-- Claim C1 witness: push(1) on the empty store changes the state, so the
handle can execute; exec installs the branch result with one notification. -/
theorem claim1_witness :
    (push1.run listModel store0).1.canExec = true ∧
    (push1.run listModel store0).1.exec store0
      = (true,
         { state :=
             (runWith (branchStepApp listModel) Store.state push1.func
               (apiBranch listModel store0)).state,
           notifies := store0.notifies + 1 }) ∧
    (push1.run listModel store0).2 = store0 :=
  claim1_branch_change_commits listModel push1 store0 store0 rfl (by decide)

/-- Claim C6 (isolated-branch strategy): when the Procedure's net effect is a
new state reference that is structurally equal to the pre-dispatch state, the
deepEqual action's handle cannot execute, while the same Procedure wrapped
without deepEqual can: its exec installs the value-equal final state and still
triggers exactly one notification. -/
theorem claim6_cancelling_net_effect {σ α : Type} (m : Model σ α)
    (p : Proc σ α) (st rst : Store σ)
    (h1 : m.refEq st.state
      (runWith (branchStepApp m) Store.state p (apiBranch m st)).state = false)
    (h2 : m.deepEq st.state
      (runWith (branchStepApp m) Store.state p (apiBranch m st)).state = true) :
    ((SmartAction.mk p true true).run m st).1.canExec = false ∧
    ((SmartAction.mk p true false).run m st).1.canExec = true ∧
    ((SmartAction.mk p true false).run m st).1.exec rst
      = (true,
         { state := (runWith (branchStepApp m) Store.state p (apiBranch m st)).state,
           notifies := rst.notifies + 1 }) := by
  have hdeep : ((SmartAction.mk p true true).runCheckState m (apiBranch m st)).1
      = false := by
    simp [SmartAction.runCheckState, apiBranch_state, h1, h2]
  have hshallow : ((SmartAction.mk p true false).runCheckState m (apiBranch m st)).1
      = true := by
    simp [SmartAction.runCheckState, apiBranch_state, h1]
  refine ⟨?_, ?_, ?_⟩
  · rw [show (SmartAction.mk p true true).run m st
        = (SmartAction.mk p true true).runBranch m st by simp [SmartAction.run],
      runBranch_false m (SmartAction.mk p true true) st hdeep]
  · rw [show (SmartAction.mk p true false).run m st
        = (SmartAction.mk p true false).runBranch m st by simp [SmartAction.run],
      runBranch_true m (SmartAction.mk p true false) st hshallow]
  · rw [show (SmartAction.mk p true false).run m st
        = (SmartAction.mk p true false).runBranch m st by simp [SmartAction.run],
      runBranch_true m (SmartAction.mk p true false) st hshallow]
    rfl

/-- Claim C6 witness: pushing then popping the same value on the empty store
yields a fresh array deep-equal to the start; with deepEqual the handle cannot
execute, without it the handle executes with one notification. -/
theorem claim6_witness :
    ((SmartAction.mk pushPopProc true true).run listModel store0).1.canExec = false ∧
    ((SmartAction.mk pushPopProc true false).run listModel store0).1.canExec = true ∧
    ((SmartAction.mk pushPopProc true false).run listModel store0).1.exec store0
      = (true,
         { state := (runWith (branchStepApp listModel) Store.state pushPopProc
             (apiBranch listModel store0)).state,
           notifies := store0.notifies + 1 }) :=
  claim6_cancelling_net_effect listModel pushPopProc store0 store0
    (by decide) (by decide)

/-- Claim C8 witness: a SmartAction whose Procedure does nothing has a handle
that cannot execute, and its exec is a no-op returning false. -/
theorem claim8_witness :
    (idleAction.run listModel store0).1.exec store0 = (false, store0) ∧
    (idleAction.run listModel store0).1.canExec = false :=
  ⟨(claim8_false_handle_exec_noop listModel idleAction store0 store0).1 (by decide),
   (claim8_false_handle_exec_noop listModel idleAction store0 store0).2
     DispatchFree.done⟩
